import Mathlib

/-!
Verification of the Smart-Feedback-AI backend core against its
natural-language specification.

The Python sources under `backend/app/services/` are shallowly embedded
below.  External collaborators (the NLTK stopword corpus and WordNet
lemmatizer, the sentence-embedding model, scikit-learn's KMeans, KeyBERT,
and the Gemini text-generation backend) are modelled as explicit function
parameters, exactly at the call boundary where the Python code invokes
them; all repository logic is translated directly.  Python `str` values
are modelled as Lean `String` at ASCII granularity (Python's `str.lower`
and the regex classes `\s`, `\w`, `[^a-z\s]` are interpreted over ASCII),
and Python float arithmetic in `int(v * (100 / total))` is idealised as
exact rational arithmetic, i.e. `Nat` floor division.
-/

/-! ## Character-level utilities (ASCII models of Python string primitives) -/

/-- ASCII model of Python `str.lower` on a single character. -/
def pyLower (c : Char) : Char :=
  if 65 ≤ c.toNat ∧ c.toNat ≤ 90 then Char.ofNat (c.toNat + 32) else c

/-- ASCII model of Python `str.lower` on a whole string. -/
def pyLowerStr (s : String) : String :=
  String.mk (s.data.map pyLower)

/-- Is `c` a lowercase ASCII letter (`a`-`z`)?  The character class kept by
the regex `[^a-z\s]` substitution in `preprocess_feedback`, besides
whitespace. -/
def aLowerB (c : Char) : Bool :=
  decide (97 ≤ c.toNat ∧ c.toNat ≤ 122)

/-- ASCII model of the regex class `\s` / Python `str.split()` whitespace. -/
def isSpaceC (c : Char) : Bool :=
  decide (c.toNat = 32 ∨ c.toNat = 9 ∨ c.toNat = 10 ∨ c.toNat = 13 ∨
          c.toNat = 11 ∨ c.toNat = 12)

/-- Characters kept by `re.sub(r'[^a-z\s]', '', text)`. -/
def keepB (c : Char) : Bool :=
  aLowerB c || isSpaceC c

/-- ASCII model of the regex class `\w` (used by `re.findall(r'\b\w+\b', ...)`
in `_generate_fallback_sentiment` and by scikit-learn's token pattern). -/
def isWordCharB (c : Char) : Bool :=
  decide (48 ≤ c.toNat ∧ c.toNat ≤ 57) || decide (65 ≤ c.toNat ∧ c.toNat ≤ 90) ||
    decide (97 ≤ c.toNat ∧ c.toNat ≤ 122) || decide (c.toNat = 95)

/-- One step of the run-splitting fold: a separator opens a new (empty)
run, any other character is prepended to the current run. -/
def runStep (sep : Char → Bool) (c : Char) (acc : List (List Char)) : List (List Char) :=
  if sep c then [] :: acc
  else
    match acc with
    | [] => [[c]]
    | g :: gs => (c :: g) :: gs

/-- All runs between separators (possibly empty runs). -/
def runsRaw (sep : Char → Bool) (l : List Char) : List (List Char) :=
  l.foldr (runStep sep) []

/-- Split a character list into the maximal runs of characters for which
`sep` is `false`, discarding the separators.  With `sep := isSpaceC` this
is Python's `str.split()`; with `sep := (!isWordCharB ·)` it is
`re.findall(r'\b\w+\b', ...)`. -/
def splitRuns (sep : Char → Bool) (l : List Char) : List (List Char) :=
  (runsRaw sep l).filter (fun g => !g.isEmpty)

/-- Python `' '.join(ws)` on character lists. -/
def joinSpC : List (List Char) → List Char
  | [] => []
  | [w] => w
  | w :: ws => w ++ ' ' :: joinSpC ws

/-- Python `' '.join(ws)` on strings. -/
def joinSp (ws : List String) : String :=
  String.mk (joinSpC (ws.map String.data))

/-! ## `NLPProcessor.preprocess_feedback` (nlp_processor.py lines 40-80)

The per-record cleaning loop of `preprocess_feedback`.  The NLTK English
stopword set and the WordNet lemmatizer are external data files loaded at
process start; they enter the embedding as the parameters `stop` and
`lem`. -/

/-- Steps 1-2 of the loop on character lists: `text.lower()` then
`re.sub(r'[^a-z\s]', '', text)`. -/
def cleanL (l : List Char) : List Char :=
  (l.map pyLower).filter keepB

/-- Steps 1-2 of the loop: `text.lower()` then `re.sub(r'[^a-z\s]', '', text)`. -/
def cleanText (s : String) : String :=
  String.mk (cleanL s.data)

/-- `text.split()` on the cleaned text. -/
def wordsOf (s : String) : List String :=
  (splitRuns isSpaceC s.data).map String.mk

/-- Steps 3-4: tokenize the cleaned text and keep the words `w` with
`w not in self.stop_words and len(w) > 2`. -/
def survivors (stop : String → Bool) (text : String) : List String :=
  (wordsOf (cleanText text)).filter (fun w => !stop w && decide (2 < w.length))

/-- One iteration of the cleaning loop of `preprocess_feedback`
(nlp_processor.py lines 51-69): lowercase, strip non-letters, tokenize,
drop stopwords and short tokens, lemmatize, rejoin; if the result is
empty, fall back to `text` — which at that point in the Python code is the
*stripped lowercase* text, the `text` variable having been reassigned by
the `re.sub` in step 2. -/
def preprocess_one (stop : String → Bool) (lem : String → String) (text : String) : String :=
  let t := cleanText text
  let ct := joinSp ((survivors stop text).map lem)
  if ct = "" then t else ct

/-- Trivial instantiations of the external stopword set and lemmatizer,
used to state closed counterexamples whose value does not depend on the
external data. -/
def noStop : String → Bool := fun _ => false

/-- Identity lemmatizer, see `noStop`. -/
def idLem : String → String := fun w => w

/-- Instantiation of the external WordNet lemmatizer on the tokens it is
consulted on below: WordNet's noun exception list maps `oxen` to `ox`
(likewise e.g. `axes` to `ax`), and every other token appearing in the
statements using it is its own lemma.  None of those tokens is an
English stopword, so pairing it with `noStop` agrees with the real NLTK
data on every consulted word. -/
def wnLem : String → String := fun w => if w = "oxen" then "ox" else w

/-- The well-formedness the second pass needs of a lemma `ℓ` produced for a
surviving token: non-empty, all lowercase ASCII letters, longer than two
characters, not a stopword, and a fixed point of the lemmatizer. -/
def goodLemma (stop : String → Bool) (lem : String → String) (ℓ : String) : Prop :=
  ℓ.data ≠ [] ∧ (∀ c ∈ ℓ.data, aLowerB c = true) ∧
    2 < ℓ.length ∧ stop ℓ = false ∧ lem ℓ = ℓ

instance (stop : String → Bool) (lem : String → String) (ℓ : String) :
    Decidable (goodLemma stop lem ℓ) := by
  unfold goodLemma
  infer_instance

/-- Whole-list `preprocess_feedback` (nlp_processor.py lines 40-80).  The
external sentence-embedding model enters as `encode`; `E` is the type of
whatever the model returns (`numpy` array of embeddings).  The Python
function wraps its whole body in `try/except` and *returns* `([],
np.array([]))` on any failure — including failure of the
`embedding_model.encode` call — modelled by the `.error` branch.  The
same sentinel is returned for empty input. -/
def preprocess_feedback {E : Type} (encode : List String → Except Unit E)
    (stop : String → Bool) (lem : String → String) (feedback_list : List String) :
    List String × Option E :=
  if feedback_list = [] then ([], none)
  else
    let cleaned := feedback_list.map (preprocess_one stop lem)
    match encode cleaned with
    | .ok e => (cleaned, some e)
    | .error _ => ([], none)

/-- An embedding model that always fails (model unavailable / encode raises). -/
def encFail : List String → Except Unit Unit := fun _ => .error ()

/-- An embedding model that always succeeds. -/
def encOk : List String → Except Unit Unit := fun _ => .ok ()

/-! ## `FeedbackClusterer` (clustering.py)

scikit-learn's `KMeans.fit_predict` is external; it enters the embedding
as the parameter `kmeans : Nat → Except Unit (List Nat)` (given the
chosen cluster count, either the label list or a raised exception, which
`_kmeans_clustering` catches by returning all-zero labels).  The output
of `_optimal_clusters` (lines 56-90; its value is irrelevant to the
claims because of the clamp on line 31) enters as `optK`. -/

/-- The cluster-count clamp of clustering.py line 31:
`max(2, min(n_clusters, min(10, len(feedback_list) // 3)))`. -/
def kChoice (optK n : Nat) : Nat :=
  max 2 (min optK (min 10 (n / 3)))

/-- One step of `_organize_clusters` (lines 108-117): append feedback `f`
to the cluster list keyed by `lab`, creating the key at the end (Python
dict insertion order) if absent. -/
def addToCluster (acc : List (Nat × List String)) (lab : Nat) (f : String) :
    List (Nat × List String) :=
  match acc with
  | [] => [(lab, [f])]
  | (k, fs) :: rest =>
    if k = lab then (k, fs ++ [f]) :: rest else (k, fs) :: addToCluster rest lab f

/-- `_organize_clusters`: fold the `(label, feedback)` pairs into an
insertion-ordered association list, the model of the Python dict. -/
def organizeClusters (pairs : List (Nat × String)) : List (Nat × List String) :=
  pairs.foldl (fun acc p => addToCluster acc p.1 p.2) []

/-- The value returned by `cluster_feedback`. -/
structure ClusterResult where
  clusters : List (Nat × List String)
  labels : List Nat
  n_clusters : Nat
  deriving DecidableEq

/-- `FeedbackClusterer.cluster_feedback` (clustering.py lines 18-54) with
`n_clusters=None`: empty-embedding guard, auto-detected count clamped by
`kChoice`, KMeans labels (all zeros if KMeans raises, per
`_kmeans_clustering` lines 92-106), clusters organized by label, and
`n_clusters` reported as `len(clusters)`. -/
def cluster_feedback {E : Type} (kmeans : Nat → Except Unit (List Nat)) (optK : Nat)
    (embeddings : List E) (feedback_list : List String) : ClusterResult :=
  if embeddings.length = 0 then ⟨[], [], 0⟩
  else
    let n := kChoice optK feedback_list.length
    let labels :=
      match kmeans n with
      | .ok l => l
      | .error _ => List.replicate embeddings.length 0
    let clusters := organizeClusters (labels.zip feedback_list)
    ⟨clusters, labels, clusters.length⟩

/-! ## `FeedbackSummarizer` sentiment logic (ai_service.py) -/

/-- A `{'positive': _, 'negative': _, 'neutral': _}` percentage dict.
All three values are non-negative integers (the regex extraction parses
`\d+` and the fallback floors at 10/5/5), so `Nat` fields. -/
structure SDist where
  positive : Nat
  negative : Nat
  neutral : Nat
  deriving DecidableEq

/-- The `positive_words` set of `_generate_fallback_sentiment` (line 410). -/
def positive_words : List String :=
  ["good", "great", "excellent", "amazing", "love", "perfect", "best",
   "wonderful", "fantastic", "awesome", "satisfied", "happy", "pleased"]

/-- The `negative_words` set of `_generate_fallback_sentiment` (line 411). -/
def negative_words : List String :=
  ["bad", "terrible", "awful", "hate", "worst", "horrible", "disappointing",
   "poor", "unsatisfied", "angry", "frustrated", "broken", "failed"]

/-- `re.findall(r'\b\w+\b', s)`: the maximal word-character runs. -/
def pyWords (s : String) : List String :=
  (splitRuns (fun c => !isWordCharB c) s.data).map String.mk

/-- `_generate_fallback_sentiment` (ai_service.py lines 407-431).  Counts
positive/negative marker words over `' '.join(feedback_list).lower()`.
(The Python code also computes an unused `neutral_count`; `int(x)` of the
non-negative float divisions is modelled as `Nat` floor division, and the
Python `max(5, 100 - ...)` with a possibly negative second argument
coincides with the `Nat` truncated subtraction below.)  The `except`
branch (returning 60/25/15) is unreachable in the model since every step
is total. -/
def generate_fallback_sentiment (feedback_list : List String) : SDist :=
  let words := pyWords (pyLowerStr (joinSp feedback_list))
  let positive_count := words.countP (fun w => positive_words.contains w)
  let negative_count := words.countP (fun w => negative_words.contains w)
  let total := feedback_list.length
  if total = 0 then ⟨50, 30, 20⟩
  else
    ⟨max 10 (positive_count * 100 / total),
     max 5 (negative_count * 100 / total),
     max 5 (100 - (positive_count + negative_count) * 100 / total)⟩

/-- The sentiment-validation block of `get_structured_analysis`
(ai_service.py lines 349-361): zero sum ⇒ lexical fallback; sum outside
`[80, 120]` ⇒ every component rescaled by `100/total` (float multiply
then `int()` truncation, idealised as exact `Nat` floor division);
otherwise unchanged. -/
def validate_sentiment (feedback_list : List String) (raw : SDist) : SDist :=
  let total := raw.positive + raw.negative + raw.neutral
  if total = 0 then generate_fallback_sentiment feedback_list
  else if total < 80 ∨ 120 < total then
    ⟨raw.positive * 100 / total, raw.negative * 100 / total, raw.neutral * 100 / total⟩
  else raw

/-! ## `FeedbackSummarizer._generate_suggestions` (ai_service.py lines 433-474) -/

/-- Is `needle` a prefix of `hay` (character lists)? -/
def startsWithB : List Char → List Char → Bool
  | [], _ => true
  | _ :: _, [] => false
  | a :: as, b :: bs => a == b && startsWithB as bs

/-- Is `n` a contiguous sublist of the second argument?  Models Python's
`needle in hay` substring test. -/
def hasSubB (n : List Char) : List Char → Bool
  | [] => n.isEmpty
  | c :: cs => startsWithB n (c :: cs) || hasSubB n cs

/-- Python `needle in hay` on strings. -/
def containsSub (needle hay : String) : Bool :=
  hasSubB needle.data hay.data

/-- The per-theme branch of the theme-based suggestion loop (lines 455-464). -/
def theme_suggestion (theme : String) : String :=
  let theme_lower := pyLowerStr theme
  if containsSub "service" theme_lower then
    "🎯 Prioritize improving " ++ theme_lower ++ " based on feedback"
  else if containsSub "quality" theme_lower then
    "🔧 Implement quality control improvements"
  else if containsSub "price" theme_lower || containsSub "cost" theme_lower then
    "💰 Review pricing strategy and value proposition"
  else
    "📋 Address " ++ theme_lower ++ " concerns mentioned frequently"

/-- The default suggestions appended when fewer than 3 were produced
(lines 467-472). -/
def default_suggestions : List String :=
  ["📊 Set up regular feedback monitoring dashboard",
   "🔄 Create systematic follow-up process with customers",
   "📈 Track improvement metrics over time"]

/-- `_generate_suggestions`: sentiment-based suggestions, then one
suggestion per top-3 theme, then defaults if fewer than 3, finally
`suggestions[:6]`.  `themes` models the Python dict in insertion order;
`feedback_list` is accepted and unused, exactly as in the source. -/
def generate_suggestions (sentiment_dist : SDist) (themes : List (String × Nat))
    (feedback_list : List String) : List String :=
  let s1 : List String :=
    if 30 < sentiment_dist.negative then
      ["🚨 URGENT: Address negative feedback issues immediately",
       "📞 Implement customer satisfaction improvement plan"]
    else if 15 < sentiment_dist.negative then
      ["⚠️ Monitor negative feedback trends and take corrective action"]
    else []
  let s2 :=
    if 70 < sentiment_dist.positive then
      s1 ++ ["✅ Leverage positive feedback for marketing testimonials",
             "🎉 Maintain current quality standards that customers love"]
    else if sentiment_dist.positive < 40 then
      s1 ++ ["📈 Focus on improving overall customer satisfaction"]
    else s1
  let s3 := s2 ++ ((themes.map Prod.fst).take 3).map theme_suggestion
  (if s3.length < 3 then s3 ++ default_suggestions else s3).take 6

/-! ## `FeedbackSummarizer.get_structured_analysis` (ai_service.py lines 316-405)

The returned Python dict is modelled as an insertion-ordered association
list over a JSON-like value type. -/

/-- JSON-like values, the image of the Python dicts/lists/strings/ints
returned by the service. -/
inductive JVal where
  | s (v : String)
  | i (v : Int)
  | b (v : Bool)
  | arr (v : List JVal)
  | obj (v : List (String × JVal))

/-- `'\n'.join` on character lists. -/
def joinNlC : List (List Char) → List Char
  | [] => []
  | [w] => w
  | w :: ws => w ++ '\n' :: joinNlC ws

/-- `'\n'.join` on strings. -/
def joinNl (ws : List String) : String :=
  String.mk (joinNlC (ws.map String.data))

/-- `"\n".join(f"Review {i+1}: {fb}" ...)` of `summarize_feedback`. -/
def review_lines (feedback_list : List String) : String :=
  joinNl (feedback_list.enum.map (fun p => "Review " ++ toString (p.1 + 1) ++ ": " ++ p.2))

/-- `"\n".join(f"{i+1}. {fb}" ...)` of `get_sentiment_breakdown`. -/
def numbered_lines (feedback_list : List String) : String :=
  joinNl (feedback_list.enum.map (fun p => toString (p.1 + 1) ++ ". " ++ p.2))

/-- The prompt of `summarize_feedback` (ai_service.py lines 36-63). -/
def summary_prompt (feedback_list : List String) : String :=
  "\nYou are an expert feedback analyzer. Analyze the following customer reviews/feedback:\n\nFEEDBACK DATA:\n"
    ++ review_lines feedback_list
    ++ "\n\nPlease provide a comprehensive analysis with the following sections:\n\n## Overall Summary\nProvide a brief overview of the feedback.\n\n## Key Positive Points\nList the main positive aspects mentioned by customers.\n\n## Areas for Improvement\nIdentify the main concerns and issues raised.\n\n## Common Themes\nIdentify recurring topics or patterns in the feedback.\n\n## Recommendations\nSuggest specific actions based on the feedback.\n\n## Sentiment Overview\nProvide an overall sentiment assessment (positive/negative/mixed).\n\nKeep the response well-structured and actionable.\n"

/-- The prompt of `get_sentiment_breakdown` (ai_service.py lines 90-123). -/
def sentiment_prompt (feedback_list : List String) : String :=
  "\nAnalyze the sentiment and themes of this customer feedback data:\n\n"
    ++ numbered_lines feedback_list
    ++ "\n\nIMPORTANT: Start your response with EXACT sentiment percentages in this format:\nPositive: XX%\nNegative: XX%\nNeutral: XX%\n\nExample:\nPositive: 65%\nNegative: 25%\nNeutral: 10%\n\nThen provide:\n\n## Most Common Positive Themes\nList the top positive themes mentioned.\n\n## Most Common Negative Themes\nList the top concerns or complaints.\n\n## Key Issues Mentioned\nList any problems or issues reported.\n\n## Quality Assessment\nFeedback about the overall quality/experience.\n\n## Overall Mood\nDescribe the general mood of the customers.\n\nMake sure the percentages add up to 100% and are clearly formatted as shown above.\n"

/-- `summarize_feedback` (ai_service.py lines 25-77).  The external
Gemini call enters as `gen`; `.error e` models `generate_content`
raising, `.ok ""` models an empty response. -/
def summarize_feedback (gen : String → Except String String) (feedback_list : List String) :
    String :=
  if feedback_list = [] then "No feedback data to summarize."
  else
    match gen (summary_prompt feedback_list) with
    | .ok t => if t = "" then "Unable to generate summary at this time." else t
    | .error e => "Error generating summary: " ++ e

/-- `get_sentiment_breakdown` (ai_service.py lines 79-137). -/
def get_sentiment_breakdown (gen : String → Except String String)
    (feedback_list : List String) : String :=
  if feedback_list = [] then "No feedback data for sentiment analysis."
  else
    match gen (sentiment_prompt feedback_list) with
    | .ok t => if t = "" then "Unable to generate sentiment analysis at this time." else t
    | .error e => "Error in sentiment analysis: " ++ e

/-- The fixed empty report of the `if not feedback_list` short-circuit
(ai_service.py lines 320-335). -/
def empty_report : List (String × JVal) :=
  [("success", .b false),
   ("total_feedback", .i 0),
   ("summary", .s "No feedback data to analyze"),
   ("sentiment_description", .s "No feedback available for analysis"),
   ("sentiment_distribution", .obj [("positive", .i 0), ("negative", .i 0), ("neutral", .i 0)]),
   ("key_themes", .obj []),
   ("statistics", .obj [("total_responses", .i 0), ("positive_count", .i 0),
                        ("negative_count", .i 0), ("neutral_count", .i 0)]),
   ("suggestions", .arr [.s "No suggestions available"])]

/-- The report of the outer `except` branch (ai_service.py lines 389-405). -/
def error_report (e : String) (feedback_list : List String) : List (String × JVal) :=
  [("success", .b false),
   ("total_feedback", .i feedback_list.length),
   ("summary", .s ("Analysis error: " ++ e)),
   ("sentiment_description", .s ("Error in sentiment analysis: " ++ e)),
   ("sentiment_distribution", .obj [("positive", .i 0), ("negative", .i 0), ("neutral", .i 0)]),
   ("key_themes", .obj []),
   ("statistics", .obj [("total_responses", .i feedback_list.length), ("positive_count", .i 0),
                        ("negative_count", .i 0), ("neutral_count", .i 0)]),
   ("suggestions", .arr [.s "Analysis failed - please try again"])]

/-- The `sentiment_distribution` sub-dict. -/
def sdistJ (d : SDist) : List (String × JVal) :=
  [("positive", .i d.positive), ("negative", .i d.negative), ("neutral", .i d.neutral)]

/-- `get_structured_analysis` (ai_service.py lines 316-405).  External
pieces entering as parameters: `gen` (the Gemini model),
`extract_pct` (the regex scrape `_extract_sentiment_percentage`, lines
158-195 — pure string pattern-matching over the free-text model output,
never constrained by the claims), `get_themes`
(`_extract_themes_dynamically`, lines 197-314 — LLM-assisted theme
extraction with NLP fallback), and `mayFail`, the oracle for the outer
`try/except`: `some e` plays the case in which some step of the body
raised an unexpected exception `e` (lines 389-405), `none` the normal
path. -/
def get_structured_analysis (gen : String → Except String String)
    (extract_pct : String → String → Nat)
    (get_themes : List String → List (String × Nat))
    (mayFail : Option String)
    (feedback_list : List String) : List (String × JVal) :=
  if feedback_list = [] then empty_report
  else
    match mayFail with
    | some e => error_report e feedback_list
    | none =>
      let summary := summarize_feedback gen feedback_list
      let sentiment_description := get_sentiment_breakdown gen feedback_list
      let raw : SDist := ⟨extract_pct sentiment_description "Positive",
                          extract_pct sentiment_description "Negative",
                          extract_pct sentiment_description "Neutral"⟩
      let sentiment_distribution := validate_sentiment feedback_list raw
      let key_themes := get_themes feedback_list
      let suggestions := generate_suggestions sentiment_distribution key_themes feedback_list
      let n := feedback_list.length
      [("success", .b true),
       ("total_feedback", .i n),
       ("summary", .s summary),
       ("sentiment_description", .s sentiment_description),
       ("sentiment_distribution", .obj (sdistJ sentiment_distribution)),
       ("key_themes", .obj (key_themes.map (fun p => (p.1, JVal.i p.2)))),
       ("statistics", .obj
         [("total_responses", .i n),
          ("positive_count", .i (n * sentiment_distribution.positive / 100)),
          ("negative_count", .i (n * sentiment_distribution.negative / 100)),
          ("neutral_count", .i (n * sentiment_distribution.neutral / 100))]),
       ("suggestions", .arr (suggestions.map JVal.s))]

/-- The keys the claims require of every report. -/
def required_keys : List String :=
  ["success", "total_feedback", "summary", "sentiment_description",
   "sentiment_distribution", "key_themes", "statistics", "suggestions"]

/-- Project the `statistics` sub-dict out of a report. -/
def statsOf (r : List (String × JVal)) : List (String × JVal) :=
  match List.lookup "statistics" r with
  | some (.obj l) => l
  | _ => []

/-- A Gemini model that always raises. -/
def genDown : String → Except String String := fun _ => .error "quota exceeded"

/-- A percentage extractor returning a constant (the report-shape claims
do not depend on the extracted values). -/
def ext40 : String → String → Nat := fun _ _ => 40

/-- A theme extractor finding nothing. -/
def themesNone : List String → List (String × Nat) := fun _ => []

/-! ## `NLPProcessor` keyword extractors (nlp_processor.py lines 82-182) -/

/-- A KMeans instantiation for the witness: alternating labels 0/1 for
six records. -/
def kmeans01 : Nat → Except Unit (List Nat) := fun _ => .ok [0, 1, 0, 1, 0, 1]

/-- Six placeholder embeddings. -/
def emb6 : List Unit := [(), (), (), (), (), ()]

/-- Six records for the witness. -/
def fb6 : List String := ["r0", "r1", "r2", "r3", "r4", "r5"]

/-- The 13-record batch of the repository's own test
`testss/test_hybrid.py`. -/
def test_feedback_13 : List String :=
  ["Outstanding presentation! The speaker covered all key points effectively",
   "Sound system needs improvement, echo was very distracting",
   "Loved the interactive polls during the session",
   "The slides were well-designed and easy to understand",
   "Speaker seemed nervous at the beginning but improved over time",
   "Lighting in the room was too dim to take proper notes",
   "Excellent use of case studies and practical examples",
   "The presentation went over the allocated time",
   "Very informative content, will definitely apply these concepts",
   "Microphone feedback was annoying throughout the session",
   "Speaker\x27s expertise was evident in the depth of knowledge shared",
   "Room was too small for the number of attendees",
   "Great storytelling approach made complex topics easier to grasp"]

/-- The report produced for the test batch (concrete instantiation of the
external model calls; the key set of the result does not depend on them). -/
def rC7 : List (String × JVal) :=
  get_structured_analysis genDown ext40 themesNone none test_feedback_13

/-! ### Support lemmas for the normalizer -/

theorem pyLower_of_keep {c : Char} (h : keepB c = true) : pyLower c = c := by
  unfold keepB aLowerB isSpaceC at h
  unfold pyLower
  rw [if_neg]
  intro hc
  simp only [Bool.or_eq_true, decide_eq_true_eq] at h
  omega

theorem keep_of_aLower {c : Char} (h : aLowerB c = true) : keepB c = true := by
  unfold keepB
  rw [h, Bool.true_or]

theorem not_space_of_aLower {c : Char} (h : aLowerB c = true) : isSpaceC c = false := by
  unfold aLowerB at h
  unfold isSpaceC
  simp only [decide_eq_true_eq] at h
  simp only [decide_eq_false_iff_not]
  omega

theorem keep_space : keepB ' ' = true := by decide

theorem cleanL_fix (l : List Char) : cleanL (cleanL l) = cleanL l := by
  unfold cleanL
  have h1 : ((l.map pyLower).filter keepB).map pyLower = (l.map pyLower).filter keepB := by
    apply List.map_congr_left ?_ |>.trans (List.map_id _)
    intro c hc
    exact pyLower_of_keep (List.of_mem_filter hc)
  rw [h1, List.filter_filter]
  apply List.filter_congr
  intro c _
  simp [Bool.and_self]

theorem cleanText_fix (s : String) : cleanText (cleanText s) = cleanText s := by
  unfold cleanText
  rw [cleanL_fix]

theorem foldr_runStep_no_sep {sep : Char → Bool} (w : List Char)
    (h : ∀ c ∈ w, sep c = false) (g : List Char) (gs : List (List Char)) :
    w.foldr (runStep sep) (g :: gs) = (w ++ g) :: gs := by
  induction w with
  | nil => rfl
  | cons c cs ih =>
    have hc : sep c = false := h c (List.mem_cons_self _ _)
    have ihh := ih (fun d hd => h d (List.mem_cons_of_mem _ hd))
    simp only [List.foldr_cons, ihh, runStep, hc, Bool.false_eq_true, if_false, List.cons_append]

theorem foldr_runStep_word {sep : Char → Bool} :
    ∀ (w : List Char), (∀ c ∈ w, sep c = false) → w ≠ [] →
      w.foldr (runStep sep) [] = [w]
  | [], _, hne => absurd rfl hne
  | [c], h, _ => by simp [runStep, h c (List.mem_cons_self _ _)]
  | c :: d :: ds, h, _ => by
    rw [List.foldr_cons,
      foldr_runStep_word (d :: ds) (fun x hx => h x (List.mem_cons_of_mem _ hx)) (by simp)]
    simp [runStep, h c (List.mem_cons_self _ _)]

theorem runsRaw_of_word {sep : Char → Bool} (w : List Char) (hne : w ≠ [])
    (h : ∀ c ∈ w, sep c = false) : runsRaw sep w = [w] :=
  foldr_runStep_word w h hne

theorem runsRaw_append_sep {sep : Char → Bool} (w rest : List Char) (s0 : Char)
    (hs : sep s0 = true) (h : ∀ c ∈ w, sep c = false) :
    runsRaw sep (w ++ s0 :: rest) = w :: runsRaw sep rest := by
  unfold runsRaw
  rw [List.foldr_append, List.foldr_cons]
  have : runStep sep s0 (rest.foldr (runStep sep) []) = [] :: rest.foldr (runStep sep) [] := by
    simp [runStep, hs]
  rw [this, foldr_runStep_no_sep w h, List.append_nil]

theorem splitRuns_joinSpC {sep : Char → Bool} (hs : sep ' ' = true) (ws : List (List Char))
    (h : ∀ w ∈ ws, w ≠ [] ∧ ∀ c ∈ w, sep c = false) :
    splitRuns sep (joinSpC ws) = ws := by
  induction ws with
  | nil => rfl
  | cons w rest ih =>
    obtain ⟨hne, hnos⟩ := h w (List.mem_cons_self _ _)
    cases rest with
    | nil =>
      show splitRuns sep w = [w]
      unfold splitRuns
      rw [runsRaw_of_word w hne hnos]
      cases w with
      | nil => exact absurd rfl hne
      | cons _ _ => rfl
    | cons v vs =>
      have hjoin : joinSpC (w :: v :: vs) = w ++ ' ' :: joinSpC (v :: vs) := rfl
      unfold splitRuns
      rw [hjoin, runsRaw_append_sep w _ ' ' hs hnos]
      rw [List.filter_cons]
      have : (!w.isEmpty) = true := by
        cases w with
        | nil => exact absurd rfl hne
        | cons _ _ => rfl
      rw [if_pos this]
      have ihh := ih (fun u hu => h u (List.mem_cons_of_mem _ hu))
      unfold splitRuns at ihh
      rw [ihh]

theorem mem_joinSpC {c : Char} (ws : List (List Char)) (h : c ∈ joinSpC ws) :
    (∃ w ∈ ws, c ∈ w) ∨ c = ' ' := by
  induction ws with
  | nil => cases h
  | cons w rest ih =>
    cases rest with
    | nil => exact Or.inl ⟨w, List.mem_cons_self _ _, h⟩
    | cons v vs =>
      have hj : joinSpC (w :: v :: vs) = w ++ ' ' :: joinSpC (v :: vs) := rfl
      rw [hj, List.mem_append, List.mem_cons] at h
      rcases h with h1 | h2 | h3
      · exact Or.inl ⟨w, List.mem_cons_self _ _, h1⟩
      · exact Or.inr h2
      · rcases ih h3 with ⟨u, hu, hcu⟩ | hsp
        · exact Or.inl ⟨u, List.mem_cons_of_mem _ hu, hcu⟩
        · exact Or.inr hsp

theorem string_mk_data (s : String) : String.mk s.data = s := rfl

theorem preprocess_one_eq (stop : String → Bool) (lem : String → String) (text : String) :
    preprocess_one stop lem text =
      (if joinSp ((survivors stop text).map lem) = "" then cleanText text
       else joinSp ((survivors stop text).map lem)) := rfl

theorem survivors_cleanText (stop : String → Bool) (x : String) :
    survivors stop (cleanText x) = survivors stop x := by
  unfold survivors
  rw [cleanText_fix]

theorem joinSp_chars {c : Char} (lems : List String)
    (hl : ∀ ℓ ∈ lems, ∀ d ∈ ℓ.data, aLowerB d = true)
    (hc : c ∈ (joinSp lems).data) : keepB c = true ∧ pyLower c = c := by
  have hc2 : c ∈ joinSpC (lems.map String.data) := hc
  rcases mem_joinSpC _ hc2 with ⟨w, hw, hcw⟩ | hsp
  · obtain ⟨ℓ, hℓ, rfl⟩ := List.mem_map.mp hw
    have ha : aLowerB c = true := hl ℓ hℓ c hcw
    exact ⟨keep_of_aLower ha, pyLower_of_keep (keep_of_aLower ha)⟩
  · subst hsp
    exact ⟨by decide, by decide⟩

theorem cleanText_joinSp (lems : List String)
    (hl : ∀ ℓ ∈ lems, ∀ d ∈ ℓ.data, aLowerB d = true) :
    cleanText (joinSp lems) = joinSp lems := by
  unfold cleanText cleanL
  have hmap : (joinSp lems).data.map pyLower = (joinSp lems).data := by
    apply (List.map_congr_left ?_).trans (List.map_id _)
    intro c hc
    exact (joinSp_chars lems hl hc).2
  rw [hmap, List.filter_eq_self.mpr (fun c hc => (joinSp_chars lems hl hc).1), string_mk_data]

theorem wordsOf_joinSp (lems : List String)
    (hl : ∀ ℓ ∈ lems, ℓ.data ≠ [] ∧ ∀ d ∈ ℓ.data, aLowerB d = true) :
    wordsOf (joinSp lems) = lems := by
  unfold wordsOf
  have hdata : (joinSp lems).data = joinSpC (lems.map String.data) := rfl
  rw [hdata, splitRuns_joinSpC (by decide) (lems.map String.data) ?_]
  · rw [List.map_map]
    exact (List.map_congr_left (fun ℓ _ => string_mk_data ℓ)).trans (List.map_id _)
  · intro w hw
    obtain ⟨ℓ, hℓ, rfl⟩ := List.mem_map.mp hw
    exact ⟨(hl ℓ hℓ).1, fun c hc => not_space_of_aLower ((hl ℓ hℓ).2 c hc)⟩

theorem survivors_joinSp (stop : String → Bool) (lem : String → String) (lems : List String)
    (hl : ∀ ℓ ∈ lems, goodLemma stop lem ℓ) :
    survivors stop (joinSp lems) = lems := by
  unfold survivors
  rw [cleanText_joinSp lems (fun ℓ hℓ => (hl ℓ hℓ).2.1),
    wordsOf_joinSp lems (fun ℓ hℓ => ⟨(hl ℓ hℓ).1, (hl ℓ hℓ).2.1⟩)]
  apply List.filter_eq_self.mpr
  intro ℓ hℓ
  obtain ⟨-, -, hlen, hstop, -⟩ := hl ℓ hℓ
  simp [hstop, hlen]

/-- C9 (amended): the text normalizer is idempotent on every input `x`
whose surviving tokens are mapped by the lemmatizer to *stable* lemmas —
non-empty all-lowercase-letter words of length > 2 that are not
stopwords and are fixed points of the lemmatizer — and, unconditionally,
on every input that takes the fallback path.  The unrestricted claim
`normalize(normalize(x)) = normalize(x)` for *every* `x` is false for
the program as shipped: WordNet's noun exception list maps a surviving
token to a lemma of length ≤ 2 (`oxen` to `ox`), and the second pass
then drops that lemma — see `normalize_idempotent_counterexample`. -/
theorem normalize_idempotent (stop : String → Bool) (lem : String → String) (x : String)
    (H : ∀ w ∈ survivors stop x, goodLemma stop lem (lem w)) :
    preprocess_one stop lem (preprocess_one stop lem x) = preprocess_one stop lem x := by
  by_cases hct : joinSp ((survivors stop x).map lem) = ""
  · rw [preprocess_one_eq stop lem x, if_pos hct,
      preprocess_one_eq stop lem (cleanText x), survivors_cleanText, cleanText_fix, if_pos hct]
  · have hler : ∀ ℓ ∈ (survivors stop x).map lem, goodLemma stop lem ℓ := by
      intro ℓ hℓ
      obtain ⟨w, hw, rfl⟩ := List.mem_map.mp hℓ
      exact H w hw
    rw [preprocess_one_eq stop lem x, if_neg hct,
      preprocess_one_eq stop lem (joinSp ((survivors stop x).map lem)),
      survivors_joinSp stop lem _ hler]
    have hmap2 : ((survivors stop x).map lem).map lem = (survivors stop x).map lem := by
      apply (List.map_congr_left ?_).trans (List.map_id _)
      intro ℓ hℓ
      exact (hler ℓ hℓ).2.2.2.2
    rw [hmap2, if_neg hct]

/-- Witness for `normalize_idempotent` at a concrete input and a concrete
instantiation of the external stopword set and lemmatizer. -/
theorem normalize_idempotent_witness :
    preprocess_one noStop idLem (preprocess_one noStop idLem "Great food here!") =
      preprocess_one noStop idLem "Great food here!" :=
  normalize_idempotent noStop idLem "Great food here!" (by decide)

/-- C9 counterexample: the normalizer is not idempotent.  With the
lemmatizer behaving as WordNet's noun exception list dictates on `oxen`
(lemma `ox`) and as the identity on every other consulted token — and no
consulted token being a stopword — the first pass sends `"oxen team"` to
`"ox team"`, but the second pass drops the now-2-character token `ox`
and returns `"team"`. -/
theorem normalize_idempotent_counterexample :
    preprocess_one noStop wnLem "oxen team" = "ox team" ∧
    preprocess_one noStop wnLem "ox team" = "team" ∧
    preprocess_one noStop wnLem (preprocess_one noStop wnLem "oxen team") ≠
      preprocess_one noStop wnLem "oxen team" := by decide

/-- On an all-punctuation input the normalizer returns the empty string
for *every* instantiation of the external stopword set and lemmatizer:
the cleaned text has no tokens, so neither parameter is ever consulted
and the fallback returns the empty stripped text. -/
theorem preprocess_one_all_punct (stop : String → Bool) (lem : String → String) :
    preprocess_one stop lem "!!!" = "" := by
  have hc : cleanText "!!!" = "" := by decide
  have hs : survivors stop "!!!" = [] := by
    unfold survivors
    rw [hc]
    rfl
  have hj : joinSp (([] : List String).map lem) = "" := by rfl
  rw [preprocess_one_eq, hs, if_pos hj]
  exact hc

theorem keys_addToCluster (acc : List (Nat × List String)) (lab : Nat) (f : String) :
    (addToCluster acc lab f).map Prod.fst =
      if lab ∈ acc.map Prod.fst then acc.map Prod.fst else acc.map Prod.fst ++ [lab] := by
  induction acc with
  | nil => simp [addToCluster]
  | cons p rest ih =>
    obtain ⟨k, fs⟩ := p
    by_cases hk : k = lab
    · subst hk
      simp [addToCluster]
    · unfold addToCluster
      rw [if_neg hk]
      simp only [List.map_cons]
      rw [ih]
      by_cases hm : lab ∈ rest.map Prod.fst
      · rw [if_pos hm, if_pos (List.mem_cons_of_mem _ hm)]
      · rw [if_neg hm, if_neg ?_]
        · rfl
        · intro hcon
          rcases List.mem_cons.mp hcon with h1 | h2
          · exact hk h1.symm
          · exact hm h2

theorem mem_keys_addToCluster (acc : List (Nat × List String)) (lab : Nat) (f : String)
    (m : Nat) :
    m ∈ (addToCluster acc lab f).map Prod.fst ↔ m ∈ acc.map Prod.fst ∨ m = lab := by
  rw [keys_addToCluster]
  by_cases hm : lab ∈ acc.map Prod.fst
  · rw [if_pos hm]
    constructor
    · exact Or.inl
    · rintro (h | rfl)
      · exact h
      · exact hm
  · rw [if_neg hm]
    simp [List.mem_append]

theorem nodup_keys_addToCluster (acc : List (Nat × List String)) (lab : Nat) (f : String)
    (h : (acc.map Prod.fst).Nodup) : ((addToCluster acc lab f).map Prod.fst).Nodup := by
  rw [keys_addToCluster]
  by_cases hm : lab ∈ acc.map Prod.fst
  · rw [if_pos hm]
    exact h
  · rw [if_neg hm]
    rw [List.nodup_append]
    refine ⟨h, List.nodup_singleton _, ?_⟩
    intro a ha hb
    rw [List.mem_singleton] at hb
    subst hb
    exact hm ha

theorem flat_addToCluster (acc : List (Nat × List String)) (lab : Nat) (f : String) :
    ((addToCluster acc lab f).flatMap Prod.snd).Perm ((acc.flatMap Prod.snd) ++ [f]) := by
  induction acc with
  | nil => simp [addToCluster]
  | cons p rest ih =>
    obtain ⟨k, fs⟩ := p
    unfold addToCluster
    by_cases hk : k = lab
    · subst hk
      rw [if_pos rfl]
      simp only [List.flatMap_cons]
      rw [List.append_assoc, List.append_assoc]
      exact List.Perm.append_left fs List.perm_append_comm
    · rw [if_neg hk]
      simp only [List.flatMap_cons]
      rw [List.append_assoc]
      exact List.Perm.append_left fs ih

theorem org_flat (pairs : List (Nat × String)) :
    ∀ acc : List (Nat × List String),
      ((pairs.foldl (fun acc p => addToCluster acc p.1 p.2) acc).flatMap Prod.snd).Perm
        (acc.flatMap Prod.snd ++ pairs.map Prod.snd) := by
  induction pairs with
  | nil => intro acc; simp
  | cons p ps ih =>
    intro acc
    simp only [List.foldl_cons, List.map_cons]
    refine (ih (addToCluster acc p.1 p.2)).trans ?_
    refine (List.Perm.append_right _ (flat_addToCluster acc p.1 p.2)).trans ?_
    rw [List.append_assoc]
    exact List.Perm.refl _

theorem org_keys_mem (pairs : List (Nat × String)) :
    ∀ (acc : List (Nat × List String)) (m : Nat),
      m ∈ ((pairs.foldl (fun acc p => addToCluster acc p.1 p.2) acc).map Prod.fst) ↔
        m ∈ acc.map Prod.fst ∨ m ∈ pairs.map Prod.fst := by
  induction pairs with
  | nil => intro acc m; simp
  | cons p ps ih =>
    intro acc m
    simp only [List.foldl_cons, List.map_cons, List.mem_cons]
    rw [ih (addToCluster acc p.1 p.2) m, mem_keys_addToCluster]
    tauto

theorem org_keys_nodup (pairs : List (Nat × String)) :
    ∀ acc : List (Nat × List String), (acc.map Prod.fst).Nodup →
      ((pairs.foldl (fun acc p => addToCluster acc p.1 p.2) acc).map Prod.fst).Nodup := by
  induction pairs with
  | nil => intro acc h; exact h
  | cons p ps ih =>
    intro acc h
    simp only [List.foldl_cons]
    exact ih _ (nodup_keys_addToCluster acc p.1 p.2 h)

theorem organizeClusters_flat (pairs : List (Nat × String)) :
    ((organizeClusters pairs).flatMap Prod.snd).Perm (pairs.map Prod.snd) := by
  have := org_flat pairs []
  simpa using this

theorem organizeClusters_keys_mem (pairs : List (Nat × String)) (m : Nat) :
    m ∈ (organizeClusters pairs).map Prod.fst ↔ m ∈ pairs.map Prod.fst := by
  have := org_keys_mem pairs [] m
  simpa [organizeClusters] using this

theorem organizeClusters_keys_nodup (pairs : List (Nat × String)) :
    ((organizeClusters pairs).map Prod.fst).Nodup := by
  have := org_keys_nodup pairs [] (by simp)
  simpa [organizeClusters] using this

/-- C1: on the non-degenerate KMeans path, `cluster_feedback` returns a
strict partition of the records: the concatenation of the cluster member
lists is a permutation of the input (every record in exactly one cluster,
no duplicates, no omissions), the cluster keys are exactly the dense
labels `0, ..., n_clusters - 1`, the returned `n_clusters` equals the
number of clusters, and `2 ≤ n_clusters ≤ 10`.  The external KMeans is
assumed to return one label per record, each below the requested count
`kChoice optK n`, with every requested label used (a KMeans run that uses
fewer labels, or raises, lands on the single-cluster fallback the claim
excepts). -/
theorem cluster_feedback_partition {E : Type} (kmeans : Nat → Except Unit (List Nat))
    (optK : Nat) (embeddings : List E) (feedback_list : List String) (labels : List Nat)
    (hlen : embeddings.length = feedback_list.length)
    (hn : 4 ≤ feedback_list.length)
    (hok : kmeans (kChoice optK feedback_list.length) = .ok labels)
    (hlab : labels.length = feedback_list.length)
    (hlt : ∀ l ∈ labels, l < kChoice optK feedback_list.length)
    (hsurj : ∀ j, j < kChoice optK feedback_list.length → j ∈ labels) :
    ((cluster_feedback kmeans optK embeddings feedback_list).clusters.flatMap Prod.snd).Perm
        feedback_list ∧
    ((cluster_feedback kmeans optK embeddings feedback_list).clusters.map Prod.fst).Nodup ∧
    (∀ m, m ∈ (cluster_feedback kmeans optK embeddings feedback_list).clusters.map Prod.fst ↔
      m < (cluster_feedback kmeans optK embeddings feedback_list).n_clusters) ∧
    (cluster_feedback kmeans optK embeddings feedback_list).n_clusters =
      (cluster_feedback kmeans optK embeddings feedback_list).clusters.length ∧
    2 ≤ (cluster_feedback kmeans optK embeddings feedback_list).n_clusters ∧
    (cluster_feedback kmeans optK embeddings feedback_list).n_clusters ≤ 10 := by
  have hne : ¬(embeddings.length = 0) := by omega
  have hred : cluster_feedback kmeans optK embeddings feedback_list =
      ⟨organizeClusters (labels.zip feedback_list), labels,
        (organizeClusters (labels.zip feedback_list)).length⟩ := by
    simp only [cluster_feedback, if_neg hne, hok]
  rw [hred]
  have hfst : (labels.zip feedback_list).map Prod.fst = labels :=
    List.map_fst_zip _ _ (le_of_eq hlab)
  have hsnd : (labels.zip feedback_list).map Prod.snd = feedback_list :=
    List.map_snd_zip _ _ (le_of_eq hlab.symm)
  have hkeysmem : ∀ m, m ∈ (organizeClusters (labels.zip feedback_list)).map Prod.fst ↔
      m < kChoice optK feedback_list.length := by
    intro m
    rw [organizeClusters_keys_mem, hfst]
    exact ⟨fun h => hlt m h, fun h => hsurj m h⟩
  have hnodup := organizeClusters_keys_nodup (labels.zip feedback_list)
  have hkeyslen : ((organizeClusters (labels.zip feedback_list)).map Prod.fst).length =
      kChoice optK feedback_list.length := by
    have hfin : ((organizeClusters (labels.zip feedback_list)).map Prod.fst).toFinset =
        Finset.range (kChoice optK feedback_list.length) := by
      apply Finset.ext
      intro m
      rw [List.mem_toFinset, Finset.mem_range]
      exact hkeysmem m
    calc ((organizeClusters (labels.zip feedback_list)).map Prod.fst).length
        = ((organizeClusters (labels.zip feedback_list)).map Prod.fst).toFinset.card :=
          (List.toFinset_card_of_nodup hnodup).symm
      _ = kChoice optK feedback_list.length := by rw [hfin, Finset.card_range]
  have hcl : (organizeClusters (labels.zip feedback_list)).length =
      kChoice optK feedback_list.length := by
    rw [← hkeyslen, List.length_map]
  refine ⟨?_, hnodup, ?_, rfl, ?_, ?_⟩
  · have := organizeClusters_flat (labels.zip feedback_list)
    rw [hsnd] at this
    exact this
  · intro m
    show m ∈ _ ↔ m < (organizeClusters (labels.zip feedback_list)).length
    rw [hcl]
    exact hkeysmem m
  · show 2 ≤ (organizeClusters (labels.zip feedback_list)).length
    rw [hcl]
    unfold kChoice
    omega
  · show (organizeClusters (labels.zip feedback_list)).length ≤ 10
    rw [hcl]
    unfold kChoice
    omega

/-- Witness for `cluster_feedback_partition` at a concrete six-record
batch clustered into two alternating clusters. -/
theorem cluster_feedback_partition_witness :
    ((cluster_feedback kmeans01 2 emb6 fb6).clusters.flatMap Prod.snd).Perm fb6 ∧
    ((cluster_feedback kmeans01 2 emb6 fb6).clusters.map Prod.fst).Nodup ∧
    (∀ m, m ∈ (cluster_feedback kmeans01 2 emb6 fb6).clusters.map Prod.fst ↔
      m < (cluster_feedback kmeans01 2 emb6 fb6).n_clusters) ∧
    (cluster_feedback kmeans01 2 emb6 fb6).n_clusters =
      (cluster_feedback kmeans01 2 emb6 fb6).clusters.length ∧
    2 ≤ (cluster_feedback kmeans01 2 emb6 fb6).n_clusters ∧
    (cluster_feedback kmeans01 2 emb6 fb6).n_clusters ≤ 10 :=
  cluster_feedback_partition kmeans01 2 emb6 fb6 [0, 1, 0, 1, 0, 1]
    (by decide) (by decide) rfl (by decide) (by decide) (by decide)

/-- C3 counterexample: when the embedding model fails, the
preprocessing/embedding stage does **not** propagate a pipeline-level
error — the `except` clause of `preprocess_feedback` catches the
exception and returns the plain value `([], np.array([]))`, which is
moreover the very value returned for empty input, so the caller cannot
even distinguish the failure from an empty batch at this boundary. -/
theorem embed_failure_counterexample :
    preprocess_feedback encFail noStop idLem ["Good service"] = ([], none) ∧
    preprocess_feedback encFail noStop idLem ["Good service"] =
      preprocess_feedback encOk noStop idLem [] := by
  exact ⟨rfl, rfl⟩

/-- C3 (amended): if the embedding call fails, `preprocess_feedback`
catches the exception and returns an empty text list and empty embedding
array — identical to the empty-input return — rather than propagating any
error to the caller.  (Whether a surrounding pipeline treats that empty
sentinel as fatal is decided by orchestration code not present in the
repository.) -/
theorem embed_failure_swallowed {E : Type} (encode : List String → Except Unit E)
    (stop : String → Bool) (lem : String → String) (feedback_list : List String)
    (h : encode (feedback_list.map (preprocess_one stop lem)) = .error ()) :
    preprocess_feedback encode stop lem feedback_list = ([], none) := by
  unfold preprocess_feedback
  by_cases hfb : feedback_list = []
  · rw [if_pos hfb]
  · rw [if_neg hfb]
    simp only [h]

/-- Witness for `embed_failure_swallowed` with a concrete failing encoder. -/
theorem embed_failure_swallowed_witness :
    preprocess_feedback encFail noStop idLem ["bad"] = ([], none) :=
  embed_failure_swallowed encFail noStop idLem ["bad"] rfl

/-- The lexical fallback always floors positive at 10 and negative at 5
(even on the `total == 0` branch, which returns 50/30/20). -/
theorem fallback_sentiment_floors (feedback_list : List String) :
    10 ≤ (generate_fallback_sentiment feedback_list).positive ∧
    5 ≤ (generate_fallback_sentiment feedback_list).negative := by
  simp only [generate_fallback_sentiment]
  by_cases h : feedback_list.length = 0
  · rw [if_pos h]
    exact ⟨by norm_num, by norm_num⟩
  · rw [if_neg h]
    exact ⟨Nat.le_max_left _ _, Nat.le_max_left _ _⟩

/-- C4: after extracting the three sentiment percentages, (i) a zero sum
replaces the whole distribution by the lexical word-counting fallback,
which always yields `positive ≥ 10` and `negative ≥ 5`; (ii) a nonzero
sum outside `[80, 120]` rescales all three values by `100/total`, and the
rescaled sum lands in `[98, 100]` — within a small tolerance of 100. -/
theorem sentiment_normalization (feedback_list : List String) (raw raw2 : SDist)
    (hzero : raw.positive + raw.negative + raw.neutral = 0)
    (hout : raw2.positive + raw2.negative + raw2.neutral < 80 ∨
            120 < raw2.positive + raw2.negative + raw2.neutral)
    (hnz : raw2.positive + raw2.negative + raw2.neutral ≠ 0) :
    (validate_sentiment feedback_list raw = generate_fallback_sentiment feedback_list ∧
      10 ≤ (validate_sentiment feedback_list raw).positive ∧
      5 ≤ (validate_sentiment feedback_list raw).negative) ∧
    (98 ≤ (validate_sentiment feedback_list raw2).positive +
            (validate_sentiment feedback_list raw2).negative +
            (validate_sentiment feedback_list raw2).neutral ∧
      (validate_sentiment feedback_list raw2).positive +
          (validate_sentiment feedback_list raw2).negative +
          (validate_sentiment feedback_list raw2).neutral ≤ 100) := by
  have hfall : validate_sentiment feedback_list raw = generate_fallback_sentiment feedback_list := by
    simp only [validate_sentiment]
    rw [if_pos hzero]
  have hresc : validate_sentiment feedback_list raw2 =
      ⟨raw2.positive * 100 / (raw2.positive + raw2.negative + raw2.neutral),
       raw2.negative * 100 / (raw2.positive + raw2.negative + raw2.neutral),
       raw2.neutral * 100 / (raw2.positive + raw2.negative + raw2.neutral)⟩ := by
    simp only [validate_sentiment]
    rw [if_neg hnz, if_pos hout]
  refine ⟨⟨hfall, ?_, ?_⟩, ?_⟩
  · rw [hfall]
    exact (fallback_sentiment_floors feedback_list).1
  · rw [hfall]
    exact (fallback_sentiment_floors feedback_list).2
  · rw [hresc]
    have ht : 0 < raw2.positive + raw2.negative + raw2.neutral := Nat.pos_of_ne_zero hnz
    obtain ⟨p, n, u⟩ := raw2
    simp only at *
    set t := p + n + u with hT
    have e1 := Nat.div_add_mod (p * 100) t
    have e2 := Nat.div_add_mod (n * 100) t
    have e3 := Nat.div_add_mod (u * 100) t
    have m1 := Nat.mod_lt (p * 100) ht
    have m2 := Nat.mod_lt (n * 100) ht
    have m3 := Nat.mod_lt (u * 100) ht
    have l1 : p * 100 < t * (p * 100 / t + 1) := by
      calc p * 100 = t * (p * 100 / t) + p * 100 % t := e1.symm
        _ < t * (p * 100 / t) + t := Nat.add_lt_add_left m1 _
        _ = t * (p * 100 / t + 1) := by ring
    have l2 : n * 100 < t * (n * 100 / t + 1) := by
      calc n * 100 = t * (n * 100 / t) + n * 100 % t := e2.symm
        _ < t * (n * 100 / t) + t := Nat.add_lt_add_left m2 _
        _ = t * (n * 100 / t + 1) := by ring
    have l3 : u * 100 < t * (u * 100 / t + 1) := by
      calc u * 100 = t * (u * 100 / t) + u * 100 % t := e3.symm
        _ < t * (u * 100 / t) + t := Nat.add_lt_add_left m3 _
        _ = t * (u * 100 / t + 1) := by ring
    constructor
    · -- 98 ≤ sum of the three floors
      have lsum : t * 100 < t * (p * 100 / t + n * 100 / t + u * 100 / t + 3) := by
        calc t * 100 = p * 100 + n * 100 + u * 100 := by rw [hT]; ring
          _ < t * (p * 100 / t + 1) + t * (n * 100 / t + 1) + t * (u * 100 / t + 1) := by
              exact Nat.add_lt_add (Nat.add_lt_add l1 l2) l3
          _ = t * (p * 100 / t + n * 100 / t + u * 100 / t + 3) := by ring
      have := Nat.lt_of_mul_lt_mul_left lsum
      omega
    · -- sum of the three floors ≤ 100
      have g1 : t * (p * 100 / t) ≤ p * 100 := Nat.le.intro e1
      have g2 : t * (n * 100 / t) ≤ n * 100 := Nat.le.intro e2
      have g3 : t * (u * 100 / t) ≤ u * 100 := Nat.le.intro e3
      have gsum : t * (p * 100 / t + n * 100 / t + u * 100 / t) ≤ t * 100 := by
        calc t * (p * 100 / t + n * 100 / t + u * 100 / t) =
            t * (p * 100 / t) + t * (n * 100 / t) + t * (u * 100 / t) := by ring
          _ ≤ p * 100 + n * 100 + u * 100 := add_le_add (add_le_add g1 g2) g3
          _ = t * 100 := by rw [hT]; ring
      exact Nat.le_of_mul_le_mul_left gsum ht

/-- Witness for `sentiment_normalization`: a zero distribution (taking
the fallback) and a `(200, 50, 50)` distribution (sum 300, rescaled to
`(66, 16, 16)`, sum 98). -/
theorem sentiment_normalization_witness :
    (validate_sentiment ["x"] ⟨0, 0, 0⟩ = generate_fallback_sentiment ["x"] ∧
      10 ≤ (validate_sentiment ["x"] ⟨0, 0, 0⟩).positive ∧
      5 ≤ (validate_sentiment ["x"] ⟨0, 0, 0⟩).negative) ∧
    (98 ≤ (validate_sentiment ["x"] ⟨200, 50, 50⟩).positive +
            (validate_sentiment ["x"] ⟨200, 50, 50⟩).negative +
            (validate_sentiment ["x"] ⟨200, 50, 50⟩).neutral ∧
      (validate_sentiment ["x"] ⟨200, 50, 50⟩).positive +
          (validate_sentiment ["x"] ⟨200, 50, 50⟩).negative +
          (validate_sentiment ["x"] ⟨200, 50, 50⟩).neutral ≤ 100) :=
  sentiment_normalization ["x"] ⟨0, 0, 0⟩ ⟨200, 50, 50⟩ (by decide)
    (by decide) (by decide)

/-- Length bounds of the final padding-and-truncation step of
`_generate_suggestions`. -/
theorem pad_take_length (l : List String) :
    1 ≤ ((if l.length < 3 then l ++ default_suggestions else l).take 6).length ∧
    ((if l.length < 3 then l ++ default_suggestions else l).take 6).length ≤ 6 := by
  by_cases h : l.length < 3
  · rw [if_pos h, List.length_take, List.length_append]
    have hd : default_suggestions.length = 3 := rfl
    omega
  · rw [if_neg h, List.length_take]
    omega

/-- C5 counterexample: with sentiment `(75, 35, 0)` (possible, since the
extracted percentages need not sum to 100) and three matching themes, the
returned suggestion list has exactly 6 entries — the code caps at
`suggestions[:6]`, not 5. -/
theorem suggestions_cap_counterexample :
    (generate_suggestions ⟨75, 35, 0⟩ [("Service", 5), ("Quality", 4), ("Price", 3)] []).length
      = 6 ∧
    ¬((generate_suggestions ⟨75, 35, 0⟩
        [("Service", 5), ("Quality", 4), ("Price", 3)] []).length ≤ 5) := by
  decide

/-- C5 (amended): for every input the returned suggestion sequence has
length at least 1 (indeed at least 3, via the default padding) and at
most 6 (the `[:6]` cap) — not at most 5. -/
theorem suggestions_length_bounds (sentiment_dist : SDist) (themes : List (String × Nat))
    (feedback_list : List String) :
    1 ≤ (generate_suggestions sentiment_dist themes feedback_list).length ∧
    (generate_suggestions sentiment_dist themes feedback_list).length ≤ 6 := by
  simp only [generate_suggestions]
  exact pad_take_length _

/-- C6 counterexample: on the empty-input path the returned `suggestions`
value is the one-element list `['No suggestions available']`, not an
empty set as claimed. -/
theorem empty_report_suggestions_counterexample :
    List.lookup "suggestions" (get_structured_analysis genDown ext40 themesNone none []) =
      some (.arr [.s "No suggestions available"]) ∧
    JVal.arr [.s "No suggestions available"] ≠ JVal.arr [] := by
  constructor
  · rfl
  · intro h
    injection h with h1
    cases h1

/-- C6 (amended): the empty input batch short-circuits — the result is the
fixed `empty_report`, independent of every pipeline-stage parameter — with
`success = false`, all counts zero, a fixed non-empty placeholder summary,
an empty theme map, and a suggestion list holding the single placeholder
string `'No suggestions available'` (not an empty suggestion set); no
exception is raised (the model is a total function). -/
theorem empty_input_short_circuit
    (gen gen2 : String → Except String String) (ext ext2 : String → String → Nat)
    (th th2 : List String → List (String × Nat)) (mf mf2 : Option String) :
    get_structured_analysis gen ext th mf [] = empty_report ∧
    get_structured_analysis gen ext th mf [] = get_structured_analysis gen2 ext2 th2 mf2 [] ∧
    List.lookup "success" empty_report = some (.b false) ∧
    List.lookup "total_feedback" empty_report = some (.i 0) ∧
    List.lookup "summary" empty_report = some (.s "No feedback data to analyze") ∧
    "No feedback data to analyze" ≠ "" ∧
    List.lookup "key_themes" empty_report = some (.obj []) ∧
    List.lookup "statistics" empty_report =
      some (.obj [("total_responses", .i 0), ("positive_count", .i 0),
                  ("negative_count", .i 0), ("neutral_count", .i 0)]) ∧
    List.lookup "suggestions" empty_report = some (.arr [.s "No suggestions available"]) :=
  ⟨rfl, rfl, rfl, rfl, rfl, by decide, rfl, rfl, rfl⟩

/-- C7 (code-bug evidence): evaluated on the repository's own 13-record
test batch, the successful report has no `cluster_info` key, and its
`statistics` sub-dict has neither `clusters_found` nor
`themes_identified` — the keys `testss/test_hybrid.py` reads
(`result['statistics']['clusters_found']` raises `KeyError`). -/
theorem report_missing_cluster_fields :
    List.lookup "cluster_info" rC7 = none ∧
    List.lookup "clusters_found" (statsOf rC7) = none ∧
    List.lookup "themes_identified" (statsOf rC7) = none ∧
    List.lookup "total_feedback" rC7 = some (.i 13) ∧
    (List.lookup "statistics" rC7).isSome = true :=
  ⟨rfl, rfl, rfl, rfl, rfl⟩

/-- C10: on every return path — empty input, internal exception, and the
successful path — `get_structured_analysis` returns a dict containing all
of `success`, `total_feedback`, `summary`, `sentiment_description`,
`sentiment_distribution`, `key_themes`, `statistics` and `suggestions`,
and never raises (the model is a total function). -/
theorem report_keys_total (gen : String → Except String String)
    (ext : String → String → Nat) (th : List String → List (String × Nat))
    (mf : Option String) (feedback_list : List String) :
    (List.lookup "success" (get_structured_analysis gen ext th mf feedback_list)).isSome ∧
    (List.lookup "total_feedback" (get_structured_analysis gen ext th mf feedback_list)).isSome ∧
    (List.lookup "summary" (get_structured_analysis gen ext th mf feedback_list)).isSome ∧
    (List.lookup "sentiment_description"
      (get_structured_analysis gen ext th mf feedback_list)).isSome ∧
    (List.lookup "sentiment_distribution"
      (get_structured_analysis gen ext th mf feedback_list)).isSome ∧
    (List.lookup "key_themes" (get_structured_analysis gen ext th mf feedback_list)).isSome ∧
    (List.lookup "statistics" (get_structured_analysis gen ext th mf feedback_list)).isSome ∧
    (List.lookup "suggestions" (get_structured_analysis gen ext th mf feedback_list)).isSome := by
  match feedback_list, mf with
  | [], _ => exact ⟨rfl, rfl, rfl, rfl, rfl, rfl, rfl, rfl⟩
  | f :: fs, some e => exact ⟨rfl, rfl, rfl, rfl, rfl, rfl, rfl, rfl⟩
  | f :: fs, none => exact ⟨rfl, rfl, rfl, rfl, rfl, rfl, rfl, rfl⟩

